import Mathlib

/-!
# A verification development for `passutils.js`

This file gives a shallow embedding of the password-generation library in
`src/passutils.js` and proves properties of it.

Modelling conventions:

* JavaScript strings are `List Char`; JavaScript numbers are rational numbers
  (`ℚ`).  Every numeric input the claims are concerned with is a rational
  (integers and values such as `5/2`); `NaN`/`Infinity` are outside the model.
* A parameter that may receive a non-number is a `JSVal`; the argument of
  `shuffle`, which may receive a non-string, is a `JSArg`.
* Thrown exceptions are modelled with `Except JsError`.
* The cryptographically secure source (`crypto.getRandomValues`) is modelled
  by a stream `sec : ℕ → ℕ`: the call `randomBytes(size)` consumes the next
  `size` values of the stream, and the code only ever uses a consumed value
  reduced modulo a pool size, so leaving the values unbounded is faithful.
* `Math.random()`-based draws in the shuffle are modelled by a separate stream
  `mr : ℕ → ℕ`: the draw `Math.floor(Math.random() * (i + 1))` at loop counter
  `i` is a uniform value in `[0, i]`, modelled as `mr i % (i + 1)` so that every
  index in the range is reachable.
-/

/-- JavaScript error values thrown by the library: `TypeError`, `RangeError`
and plain `Error`, each carrying its message. -/
inductive JsError where
  | typeError (msg : String)
  | rangeError (msg : String)
  | error (msg : String)
deriving DecidableEq, Repr

/-- A JavaScript value passed where a number is expected: either a number
(modelled as a rational) or some non-number value. -/
inductive JSVal where
  | num (val : ℚ)
  | other
deriving DecidableEq

/-- A JavaScript value passed to `shuffle`: either a string or a non-string
value (the defensive type check in `shuffle` only distinguishes these two). -/
inductive JSArg where
  | str (s : List Char)
  | nonString

/-- `const uppercase = "ABCDEFGHIJKLMNOPQRSTUVWXYZ"` (line 3). -/
def uppercase : List Char := "ABCDEFGHIJKLMNOPQRSTUVWXYZ".toList

/-- `const lowercase = "abcdefghijklmnopqrstuvwxyz"` (line 4). -/
def lowercase : List Char := "abcdefghijklmnopqrstuvwxyz".toList

/-- `const numbers = "0123456789"` (line 5). -/
def numbers : List Char := "0123456789".toList

/-- `const symbols = ...` (line 6); the braces are written with escapes. -/
def symbols : List Char := "!@#$%^&*()+_-=\x7d\x7b[]|:;\"/?.><,`~".toList

/-- The characters matched by the regex `/[ilLI|`oO0]/g` (line 7). -/
def similarChars : List Char := "ilLI|`oO0".toList

/-- `options` of `generatePassword`, with the source's destructuring
defaults (lines 89-96). -/
structure GenOptions where
  uppercase : Bool := true
  lowercase : Bool := true
  numbers : Bool := true
  symbols : Bool := true
  similar : Bool := true
  exclude : List Char := []
deriving DecidableEq

/-- `requirements` of `generatePassword`.  A field is `none` when the property
is absent from the object (JavaScript `undefined`), in which case the
destructuring default `0` applies (lines 98-103). -/
structure Requirements where
  minUpper : Option ℚ := none
  minLower : Option ℚ := none
  minNumbers : Option ℚ := none
  minSymbols : Option ℚ := none
deriving DecidableEq

/-- Requirements whose four fields are present and equal to the given natural
numbers. -/
def natReqs (mu ml mn ms : ℕ) : Requirements :=
  { minUpper := some (mu : ℚ), minLower := some (ml : ℚ),
    minNumbers := some (mn : ℚ), minSymbols := some (ms : ℚ) }

/-- JavaScript truthiness of a requirements field: `undefined` (a missing
field) and `0` are falsy, every other number is truthy. -/
def jsTruthy : Option ℚ → Bool
  | none => false
  | some q => decide (q ≠ 0)

/-- The number of iterations of a JavaScript loop
`for (let i = 0; i < bound; i++)` with a numeric bound: the smallest natural
number `n` with `¬(n < bound)`, i.e. the ceiling of `bound` clamped to `ℕ`. -/
def jsLoopCount (bound : ℚ) : ℕ := bound.ceil.toNat

/-- The length of `new Uint32Array(size)` for a numeric `size`: ECMAScript
`ToIndex` truncates toward zero.  Every `size` occurring in this code is
non-negative (so truncation is the floor); arguments `≤ -1`, which would throw
in JavaScript, do not occur. -/
def toIndex (size : ℚ) : ℕ := size.floor.toNat

/-- One iteration of the loop body `str += charPool[bytes[i] % charPool.length]`
in `getRandomString` (line 47).  `b` is the value read from `bytes[i]`, `none`
when the read is out of range of the typed array and yields `undefined`.  An
undefined lookup (out-of-range read, or an empty pool, whose length makes the
index `NaN`) appended to a string contributes the text "undefined". -/
def jsCharFragment (charPool : List Char) (b : Option ℕ) : List Char :=
  match b with
  | some v =>
    match charPool[v % charPool.length]? with
    | some c => [c]
    | none => "undefined".toList
  | none => "undefined".toList

/-- `getRandomString(charPool, length)` (lines 43-50).  The call
`randomBytes(length)` consumes the `toIndex length` secure random values
`sec off, sec (off+1), ...`; the building loop runs `jsLoopCount length`
times. -/
def getRandomString (charPool : List Char) (length : ℚ) (sec : ℕ → ℕ) (off : ℕ) :
    List Char :=
  (List.range (jsLoopCount length)).flatMap fun i =>
    jsCharFragment charPool (if i < toIndex length then some (sec (off + i)) else none)

/-- `validateInput(value, minValue, name)` (lines 58-65).  In this embedding the
validated numeric value is returned, so that callers can bind it. -/
def validateInput (value : JSVal) (minValue : ℚ) (name : String) : Except JsError ℚ :=
  match value with
  | JSVal.other => Except.error (JsError.typeError (name ++ " must be a number"))
  | JSVal.num x =>
    if x < minValue then
      Except.error (JsError.rangeError (name ++ " must be equal at least " ++ toString minValue))
    else Except.ok x

/-- The destructuring swap `[arr[i], arr[rnd]] = [arr[rnd], arr[i]]` (line 33):
read both entries, write them back exchanged.  In the source both indices are
always in bounds; for out-of-range indices the list is returned unchanged. -/
def lswap (l : List Char) (i j : ℕ) : List Char :=
  match l[i]?, l[j]? with
  | some a, some b => (l.set i b).set j a
  | _, _ => l

/-- The Fisher-Yates loop of `shuffle` (lines 31-34), iterating the loop
counter downward:  at counter `i` the index `rnd = Math.floor(Math.random() *
(i + 1))` is drawn (modelled as `mr i % (i + 1)`) and entries `i` and `rnd`
are swapped. -/
def fyLoop (mr : ℕ → ℕ) (l : List Char) : ℕ → List Char
  | 0 => l
  | i + 1 => fyLoop mr (lswap l (i + 1) (mr (i + 1) % (i + 2))) i

/-- The string-level effect of `shuffle` on a string argument: split, run the
Fisher-Yates loop from index `length - 1` down to `1`, join. -/
def fisherYates (s : List Char) (mr : ℕ → ℕ) : List Char :=
  fyLoop mr s (s.length - 1)

/-- `shuffle(str)` (lines 25-36): a `TypeError` on a non-string argument,
otherwise the Fisher-Yates permutation driven by the `Math.random` stream. -/
def shuffle (v : JSArg) (mr : ℕ → ℕ) : Except JsError (List Char) :=
  match v with
  | JSArg.nonString =>
    Except.error (JsError.typeError "Shuffle function only accept string as an argument")
  | JSArg.str s => Except.ok (fisherYates s mr)

/-- The two filters applied to one per-class pool (lines 132-143): first, if
`exclude` is a non-empty string, remove every excluded character (the source
escapes all pattern-special characters before building its character class, so
the removal is literal); then, if `similar` is false, remove the
visually-similar characters. -/
def applyFilters (o : GenOptions) (pool : List Char) : List Char :=
  let pool1 := if o.exclude ≠ [] then pool.filter (fun c => !(o.exclude.contains c)) else pool
  if !o.similar then pool1.filter (fun c => !(similarChars.contains c)) else pool1

/-- `possibleCharacters.lowercase` after filtering (lines 126-143). -/
def pcLower (o : GenOptions) : List Char :=
  applyFilters o (if o.lowercase then lowercase else [])

/-- `possibleCharacters.uppercase` after filtering (lines 126-143). -/
def pcUpper (o : GenOptions) : List Char :=
  applyFilters o (if o.uppercase then uppercase else [])

/-- `possibleCharacters.numbers` after filtering (lines 126-143). -/
def pcNum (o : GenOptions) : List Char :=
  applyFilters o (if o.numbers then numbers else [])

/-- `possibleCharacters.symbols` after filtering (lines 126-143). -/
def pcSym (o : GenOptions) : List Char :=
  applyFilters o (if o.symbols then symbols else [])

/-- `charSet` (lines 144-148): the order-preserving concatenation of the
filtered per-class pools, in the fixed order lowercase, uppercase, numbers,
symbols. -/
def charSetOf (o : GenOptions) : List Char :=
  pcLower o ++ pcUpper o ++ pcNum o ++ pcSym o

/-- The validation cascade of `generatePassword` (lines 88-162), in source
order: length validation; the four requirement validations; the sum-vs-length
check; the requirement-vs-disabled-option check; then, after the (purely
deterministic) pool filtering, the empty-pool check and the
requirement-vs-filtered-pool check.  Returns the validated numbers
`(length, minUpper, minLower, minNumbers, minSymbols)`.  No random value is
consumed here. -/
def gpValidate (length : JSVal) (o : GenOptions) (r : Requirements) :
    Except JsError (ℚ × ℚ × ℚ × ℚ × ℚ) := do
  let len ← validateInput length 1 "Password length"
  let requiredUppercase ← validateInput (JSVal.num (r.minUpper.getD 0)) 0
    "Required uppercase characters"
  let requiredLowercase ← validateInput (JSVal.num (r.minLower.getD 0)) 0
    "Required lowercase characters"
  let requiredNumbers ← validateInput (JSVal.num (r.minNumbers.getD 0)) 0
    "Required number characters"
  let requiredSymbols ← validateInput (JSVal.num (r.minSymbols.getD 0)) 0
    "Required symbol characters"
  let requiredPasswordLength := requiredUppercase + requiredLowercase +
    requiredNumbers + requiredSymbols
  if requiredPasswordLength > len then
    throw (JsError.error
      ("Your password length is too short to meet your requirements. Change password length to at least "
        ++ toString requiredPasswordLength))
  if (o.uppercase = false ∧ requiredUppercase ≠ 0) ∨
      (o.lowercase = false ∧ requiredLowercase ≠ 0) ∨
      (o.numbers = false ∧ requiredNumbers ≠ 0) ∨
      (o.symbols = false ∧ requiredSymbols ≠ 0) then
    throw (JsError.error "Your password options do not meet the requirements.")
  if charSetOf o = [] then
    throw (JsError.rangeError "Character pool is empty. Enable at least one character type.")
  if (0 < requiredLowercase ∧ (pcLower o).length = 0) ∨
      (0 < requiredUppercase ∧ (pcUpper o).length = 0) ∨
      (0 < requiredNumbers ∧ (pcNum o).length = 0) ∨
      (0 < requiredSymbols ∧ (pcSym o).length = 0) then
    throw (JsError.error
      "You excluded characters that are required to generate a password with the specified requirements.")
  pure (len, requiredUppercase, requiredLowercase, requiredNumbers, requiredSymbols)

/-- The password assembly of `generatePassword` (lines 163-170): for each class
whose raw requirements field is truthy, a block of that class's validated
minimum of characters drawn from the class's filtered pool, in source order
lowercase, uppercase, numbers, symbols; then the filler block drawn from the
full pool.  Each `getRandomString` call consumes the next `toIndex` values of
the secure stream, so the offsets accumulate the consumption of the preceding
calls. -/
def assemble (o : GenOptions) (r : Requirements) (len ru rl rn rs : ℚ) (sec : ℕ → ℕ) :
    List Char :=
  let block1 := if jsTruthy r.minLower then getRandomString (pcLower o) rl sec 0 else []
  let off2 := if jsTruthy r.minLower then toIndex rl else 0
  let block2 := if jsTruthy r.minUpper then getRandomString (pcUpper o) ru sec off2 else []
  let off3 := off2 + if jsTruthy r.minUpper then toIndex ru else 0
  let block3 := if jsTruthy r.minNumbers then getRandomString (pcNum o) rn sec off3 else []
  let off4 := off3 + if jsTruthy r.minNumbers then toIndex rn else 0
  let block4 := if jsTruthy r.minSymbols then getRandomString (pcSym o) rs sec off4 else []
  let off5 := off4 + if jsTruthy r.minSymbols then toIndex rs else 0
  block1 ++ block2 ++ block3 ++ block4 ++
    getRandomString (charSetOf o) (len - (ru + rl + rn + rs)) sec off5

/-- `generatePassword(length, options, requirements)` (lines 87-172): the
validation cascade, then assembly of the pre-shuffle password, then the
Fisher-Yates shuffle.  `sec` is the stream of secure random values consumed by
the `getRandomString` calls, `mr` the stream of `Math.random` draws consumed by
the shuffle. -/
def generatePassword (length : JSVal) (o : GenOptions) (r : Requirements)
    (sec mr : ℕ → ℕ) : Except JsError (List Char) := do
  let (len, ru, rl, rn, rs) ← gpValidate length o r
  shuffle (JSArg.str (assemble o r len ru rl rn rs sec)) mr

/-- `generateMultiplePasswords(amount, length, options, requirements)`
(lines 195-203): validate the length, validate the amount, then run the
generation loop `for (let i = 0; i < amount; i++)`, collecting the passwords
(a thrown error propagates).  Each iteration `i` consumes fresh entropy,
modelled by per-iteration streams `sec i` and `mr i`. -/
def generateMultiplePasswords (amount length : JSVal) (o : GenOptions)
    (r : Requirements) (sec mr : ℕ → ℕ → ℕ) : Except JsError (List (List Char)) := do
  let _ ← validateInput length 1 "Password length"
  let a ← validateInput amount 1 "Amount of passwords"
  (List.range (jsLoopCount a)).mapM fun i => generatePassword length o r (sec i) (mr i)

/-- The conjunction of everything the validation cascade of `generatePassword`
checks about an input whose length and minimums are natural numbers: a positive
length, minimums summing to at most the length, no positive minimum for a
disabled class, a non-empty full pool, and a non-empty filtered class pool for
each class with a positive minimum. -/
abbrev ValidConfig (L : ℕ) (o : GenOptions) (mu ml mn ms : ℕ) : Prop :=
  1 ≤ L ∧ mu + ml + mn + ms ≤ L ∧
  (o.uppercase = false → mu = 0) ∧ (o.lowercase = false → ml = 0) ∧
  (o.numbers = false → mn = 0) ∧ (o.symbols = false → ms = 0) ∧
  charSetOf o ≠ [] ∧
  (0 < mu → pcUpper o ≠ []) ∧ (0 < ml → pcLower o ≠ []) ∧
  (0 < mn → pcNum o ≠ []) ∧ (0 < ms → pcSym o ≠ [])

/-! ## Basic lemmas about the loop-count and random-string helpers -/

theorem jsLoopCount_natCast (n : ℕ) : jsLoopCount (n : ℚ) = n := by
  simp [jsLoopCount, Rat.ceil]

theorem toIndex_natCast (n : ℕ) : toIndex (n : ℚ) = n := by
  simp [toIndex, Rat.floor_def']

theorem flatMap_eq_map_of_forall {α β : Type} (f : α → List β) (g : α → β) :
    ∀ l : List α, (∀ a ∈ l, f a = [g a]) → l.flatMap f = l.map g := by
  intro l
  induction l with
  | nil => intro _; rfl
  | cons a t ih =>
    intro h
    rw [List.flatMap_cons, List.map_cons, h a (by simp),
      ih (fun x hx => h x (by simp [hx]))]
    rfl

theorem getRandomString_natCast (charPool : List Char) (h : charPool ≠ []) (n : ℕ)
    (sec : ℕ → ℕ) (off : ℕ) :
    getRandomString charPool (n : ℚ) sec off =
      (List.range n).map fun i => charPool.getD (sec (off + i) % charPool.length) 'a' := by
  unfold getRandomString
  rw [jsLoopCount_natCast, toIndex_natCast]
  apply flatMap_eq_map_of_forall
  intro i hi
  rw [List.mem_range] at hi
  rw [if_pos hi]
  have hlen : 0 < charPool.length := List.length_pos.mpr h
  have hidx : sec (off + i) % charPool.length < charPool.length := Nat.mod_lt _ hlen
  simp [jsCharFragment, List.getElem?_eq_getElem hidx, List.getD_eq_getElem _ _ hidx]

theorem getRandomString_zero (charPool : List Char) (sec : ℕ → ℕ) (off : ℕ) :
    getRandomString charPool ((0 : ℕ) : ℚ) sec off = [] := by
  unfold getRandomString
  rw [jsLoopCount_natCast]
  rfl

theorem getRandomString_length (charPool : List Char) (n : ℕ)
    (h : 0 < n → charPool ≠ []) (sec : ℕ → ℕ) (off : ℕ) :
    (getRandomString charPool (n : ℚ) sec off).length = n := by
  rcases Nat.eq_zero_or_pos n with h0 | hpos
  · subst h0; rw [getRandomString_zero]; rfl
  · rw [getRandomString_natCast charPool (h hpos) n sec off]; simp

theorem getRandomString_mem (charPool : List Char) (n : ℕ)
    (h : 0 < n → charPool ≠ []) (sec : ℕ → ℕ) (off : ℕ) {c : Char} :
    c ∈ getRandomString charPool (n : ℚ) sec off → c ∈ charPool := by
  rcases Nat.eq_zero_or_pos n with h0 | hpos
  · subst h0; rw [getRandomString_zero]; intro hc; cases hc
  · rw [getRandomString_natCast charPool (h hpos) n sec off]
    intro hc
    rw [List.mem_map] at hc
    obtain ⟨i, _, rfl⟩ := hc
    have hlen : 0 < charPool.length := List.length_pos.mpr (h hpos)
    have hidx : sec (off + i) % charPool.length < charPool.length := Nat.mod_lt _ hlen
    rw [List.getD_eq_getElem _ _ hidx]
    exact List.getElem_mem hidx

theorem getRandomString_countP (charPool : List Char) (n : ℕ)
    (h : 0 < n → charPool ≠ []) (sec : ℕ → ℕ) (off : ℕ) (p : Char → Bool)
    (hp : ∀ c ∈ charPool, p c = true) :
    (getRandomString charPool (n : ℚ) sec off).countP p = n := by
  have hall : ∀ c ∈ getRandomString charPool (n : ℚ) sec off, p c = true :=
    fun c hc => hp c (getRandomString_mem charPool n h sec off hc)
  rw [List.countP_eq_length.mpr hall, getRandomString_length charPool n h sec off]

/-! ## The shuffle is a permutation -/

theorem cons_set_perm {b x : Char} :
    ∀ (t : List Char) (m : ℕ), t[m]? = some b → (b :: t.set m x).Perm (x :: t) := by
  intro t
  induction t with
  | nil => intro m h; simp at h
  | cons y t2 ih =>
    intro m h
    cases m with
    | zero =>
      rw [List.getElem?_cons_zero, Option.some_inj] at h
      subst h
      simpa using List.Perm.swap x y t2
    | succ k =>
      have h2 : t2[k]? = some b := by simpa using h
      exact ((List.Perm.swap y b (t2.set k x)).trans
        (List.Perm.cons y (ih k h2))).trans (List.Perm.swap x y t2)

theorem set_set_swap_perm :
    ∀ (l : List Char) (i j : ℕ) (a b : Char),
      l[i]? = some a → l[j]? = some b → ((l.set i b).set j a).Perm l := by
  intro l
  induction l with
  | nil => intro i j a b hi _; simp at hi
  | cons x t ih =>
    intro i j a b hi hj
    cases i with
    | zero =>
      rw [List.getElem?_cons_zero, Option.some_inj] at hi
      subst hi
      cases j with
      | zero =>
        rw [List.getElem?_cons_zero, Option.some_inj] at hj
        subst hj
        simp
      | succ k =>
        have hk : t[k]? = some b := by simpa using hj
        rw [List.set_cons_zero, List.set_cons_succ]
        exact cons_set_perm t k hk
    | succ m =>
      have hm : t[m]? = some a := by simpa using hi
      cases j with
      | zero =>
        rw [List.getElem?_cons_zero, Option.some_inj] at hj
        subst hj
        rw [List.set_cons_succ, List.set_cons_zero]
        exact cons_set_perm t m hm
      | succ k =>
        have hk : t[k]? = some b := by simpa using hj
        rw [List.set_cons_succ, List.set_cons_succ]
        exact List.Perm.cons x (ih m k a b hm hk)

theorem lswap_perm (l : List Char) (i j : ℕ) : (lswap l i j).Perm l := by
  unfold lswap
  cases hi : l[i]? with
  | none => exact List.Perm.refl l
  | some a =>
    cases hj : l[j]? with
    | none => exact List.Perm.refl l
    | some b => exact set_set_swap_perm l i j a b hi hj

theorem fyLoop_perm (mr : ℕ → ℕ) : ∀ (k : ℕ) (l : List Char), (fyLoop mr l k).Perm l := by
  intro k
  induction k with
  | zero => intro l; exact List.Perm.refl l
  | succ i ih =>
    intro l
    exact (ih _).trans (lswap_perm l (i + 1) (mr (i + 1) % (i + 2)))

theorem fisherYates_perm (s : List Char) (mr : ℕ → ℕ) : (fisherYates s mr).Perm s :=
  fyLoop_perm mr (s.length - 1) s

/-! ## Lemmas about validation -/

theorem validateInput_num_ok {q m : ℚ} (h : ¬ q < m) (name : String) :
    validateInput (JSVal.num q) m name = Except.ok q := by
  simp [validateInput, h]

theorem gpValidate_ok (L : ℕ) (o : GenOptions) (mu ml mn ms : ℕ)
    (h : ValidConfig L o mu ml mn ms) :
    gpValidate (JSVal.num (L : ℚ)) o (natReqs mu ml mn ms) =
      Except.ok ((L : ℚ), (mu : ℚ), (ml : ℚ), (mn : ℚ), (ms : ℚ)) := by
  obtain ⟨hL, hsum, hdu, hdl, hdn, hds, hpool, hpu, hpl, hpn, hps⟩ := h
  have hL' : ¬ ((L : ℚ) < 1) := by rw [not_lt]; exact_mod_cast hL
  have hmu : ¬ ((mu : ℚ) < 0) := not_lt.mpr (Nat.cast_nonneg mu)
  have hml : ¬ ((ml : ℚ) < 0) := not_lt.mpr (Nat.cast_nonneg ml)
  have hmn : ¬ ((mn : ℚ) < 0) := not_lt.mpr (Nat.cast_nonneg mn)
  have hms : ¬ ((ms : ℚ) < 0) := not_lt.mpr (Nat.cast_nonneg ms)
  have hgt : ¬ ((mu : ℚ) + (ml : ℚ) + (mn : ℚ) + (ms : ℚ) > (L : ℚ)) := by
    rw [not_lt]
    exact_mod_cast hsum
  simp only [gpValidate, natReqs, Option.getD_some,
    validateInput_num_ok hL', validateInput_num_ok hmu, validateInput_num_ok hml,
    validateInput_num_ok hmn, validateInput_num_ok hms]
  simp [Bind.bind, Except.bind, hgt, hpool, pure, Except.pure]
  have hopt2 : ¬ (o.uppercase = false ∧ ¬ mu = 0 ∨ o.lowercase = false ∧ ¬ ml = 0 ∨
      o.numbers = false ∧ ¬ mn = 0 ∨ o.symbols = false ∧ ¬ ms = 0) := by
    push_neg
    exact ⟨hdu, hdl, hdn, hds⟩
  have hreq2 : ¬ (0 < ml ∧ pcLower o = [] ∨ 0 < mu ∧ pcUpper o = [] ∨
      0 < mn ∧ pcNum o = [] ∨ 0 < ms ∧ pcSym o = []) := by
    push_neg
    exact ⟨hpl, hpu, hpn, hps⟩
  rw [if_neg hopt2, if_neg hreq2]

/-! ## The assembled pre-shuffle password -/

theorem assemble_natReqs (o : GenOptions) (mu ml mn ms : ℕ) (len : ℚ) (sec : ℕ → ℕ) :
    assemble o (natReqs mu ml mn ms) len (mu : ℚ) (ml : ℚ) (mn : ℚ) (ms : ℚ) sec =
      getRandomString (pcLower o) (ml : ℚ) sec 0 ++
      getRandomString (pcUpper o) (mu : ℚ) sec ml ++
      getRandomString (pcNum o) (mn : ℚ) sec (ml + mu) ++
      getRandomString (pcSym o) (ms : ℚ) sec (ml + mu + mn) ++
      getRandomString (charSetOf o) (len - ((mu : ℚ) + ml + mn + ms)) sec
        (ml + mu + mn + ms) := by
  have hz : ∀ (pool : List Char) (off : ℕ), getRandomString pool (0 : ℚ) sec off = [] :=
    fun pool off => by simpa using getRandomString_zero pool sec off
  unfold assemble
  by_cases h1 : ml = 0 <;> by_cases h2 : mu = 0 <;> by_cases h3 : mn = 0 <;>
    by_cases h4 : ms = 0 <;>
    simp [natReqs, jsTruthy, h1, h2, h3, h4, toIndex_natCast, hz]

theorem assemble_length (o : GenOptions) (mu ml mn ms L : ℕ)
    (hsum : mu + ml + mn + ms ≤ L) (hpool : charSetOf o ≠ [])
    (hpu : 0 < mu → pcUpper o ≠ []) (hpl : 0 < ml → pcLower o ≠ [])
    (hpn : 0 < mn → pcNum o ≠ []) (hps : 0 < ms → pcSym o ≠ []) (sec : ℕ → ℕ) :
    (assemble o (natReqs mu ml mn ms) (L : ℚ) (mu : ℚ) (ml : ℚ) (mn : ℚ) (ms : ℚ)
      sec).length = L := by
  rw [assemble_natReqs]
  have hfill : ((L : ℚ) - ((mu : ℚ) + ml + mn + ms)) =
      (((L - (mu + ml + mn + ms)) : ℕ) : ℚ) := by
    rw [Nat.cast_sub hsum]
    push_cast
    ring
  rw [hfill]
  simp only [List.length_append]
  rw [getRandomString_length (pcLower o) ml hpl, getRandomString_length (pcUpper o) mu hpu,
    getRandomString_length (pcNum o) mn hpn, getRandomString_length (pcSym o) ms hps,
    getRandomString_length (charSetOf o) (L - (mu + ml + mn + ms)) (fun _ => hpool)]
  omega

theorem assemble_mem (o : GenOptions) (mu ml mn ms L : ℕ)
    (hsum : mu + ml + mn + ms ≤ L) (hpool : charSetOf o ≠ [])
    (hpu : 0 < mu → pcUpper o ≠ []) (hpl : 0 < ml → pcLower o ≠ [])
    (hpn : 0 < mn → pcNum o ≠ []) (hps : 0 < ms → pcSym o ≠ []) (sec : ℕ → ℕ) {c : Char} :
    c ∈ assemble o (natReqs mu ml mn ms) (L : ℚ) (mu : ℚ) (ml : ℚ) (mn : ℚ) (ms : ℚ) sec →
      c ∈ charSetOf o := by
  rw [assemble_natReqs]
  have hfill : ((L : ℚ) - ((mu : ℚ) + ml + mn + ms)) =
      (((L - (mu + ml + mn + ms)) : ℕ) : ℚ) := by
    rw [Nat.cast_sub hsum]
    push_cast
    ring
  rw [hfill]
  intro hc
  simp only [List.mem_append] at hc
  rcases hc with ((((h | h) | h) | h) | h)
  · have := getRandomString_mem (pcLower o) ml hpl sec 0 h
    simp [charSetOf, List.mem_append, this]
  · have := getRandomString_mem (pcUpper o) mu hpu sec ml h
    simp [charSetOf, List.mem_append, this]
  · have := getRandomString_mem (pcNum o) mn hpn sec (ml + mu) h
    simp [charSetOf, List.mem_append, this]
  · have := getRandomString_mem (pcSym o) ms hps sec (ml + mu + mn) h
    simp [charSetOf, List.mem_append, this]
  · exact getRandomString_mem (charSetOf o) (L - (mu + ml + mn + ms)) (fun _ => hpool) sec
      (ml + mu + mn + ms) h

theorem assemble_countP_lower (o : GenOptions) (mu ml mn ms : ℕ) (len : ℚ)
    (hpl : 0 < ml → pcLower o ≠ []) (sec : ℕ → ℕ) :
    ml ≤ (assemble o (natReqs mu ml mn ms) len (mu : ℚ) (ml : ℚ) (mn : ℚ) (ms : ℚ)
      sec).countP (fun c => decide (c ∈ pcLower o)) := by
  rw [assemble_natReqs]
  simp only [List.countP_append]
  have hb : (getRandomString (pcLower o) (ml : ℚ) sec 0).countP
      (fun c => decide (c ∈ pcLower o)) = ml :=
    getRandomString_countP (pcLower o) ml hpl sec 0 _ (fun c hc => decide_eq_true hc)
  omega

theorem assemble_countP_upper (o : GenOptions) (mu ml mn ms : ℕ) (len : ℚ)
    (hpu : 0 < mu → pcUpper o ≠ []) (sec : ℕ → ℕ) :
    mu ≤ (assemble o (natReqs mu ml mn ms) len (mu : ℚ) (ml : ℚ) (mn : ℚ) (ms : ℚ)
      sec).countP (fun c => decide (c ∈ pcUpper o)) := by
  rw [assemble_natReqs]
  simp only [List.countP_append]
  have hb : (getRandomString (pcUpper o) (mu : ℚ) sec ml).countP
      (fun c => decide (c ∈ pcUpper o)) = mu :=
    getRandomString_countP (pcUpper o) mu hpu sec ml _ (fun c hc => decide_eq_true hc)
  omega

theorem assemble_countP_num (o : GenOptions) (mu ml mn ms : ℕ) (len : ℚ)
    (hpn : 0 < mn → pcNum o ≠ []) (sec : ℕ → ℕ) :
    mn ≤ (assemble o (natReqs mu ml mn ms) len (mu : ℚ) (ml : ℚ) (mn : ℚ) (ms : ℚ)
      sec).countP (fun c => decide (c ∈ pcNum o)) := by
  rw [assemble_natReqs]
  simp only [List.countP_append]
  have hb : (getRandomString (pcNum o) (mn : ℚ) sec (ml + mu)).countP
      (fun c => decide (c ∈ pcNum o)) = mn :=
    getRandomString_countP (pcNum o) mn hpn sec (ml + mu) _ (fun c hc => decide_eq_true hc)
  omega

theorem assemble_countP_sym (o : GenOptions) (mu ml mn ms : ℕ) (len : ℚ)
    (hps : 0 < ms → pcSym o ≠ []) (sec : ℕ → ℕ) :
    ms ≤ (assemble o (natReqs mu ml mn ms) len (mu : ℚ) (ml : ℚ) (mn : ℚ) (ms : ℚ)
      sec).countP (fun c => decide (c ∈ pcSym o)) := by
  rw [assemble_natReqs]
  simp only [List.countP_append]
  have hb : (getRandomString (pcSym o) (ms : ℚ) sec (ml + mu + mn)).countP
      (fun c => decide (c ∈ pcSym o)) = ms :=
    getRandomString_countP (pcSym o) ms hps sec (ml + mu + mn) _ (fun c hc => decide_eq_true hc)
  omega

/-! ## Evaluating generatePassword -/

theorem generatePassword_ok (L : ℕ) (o : GenOptions) (mu ml mn ms : ℕ)
    (h : ValidConfig L o mu ml mn ms) (sec mr : ℕ → ℕ) :
    generatePassword (JSVal.num (L : ℚ)) o (natReqs mu ml mn ms) sec mr =
      Except.ok (fisherYates
        (assemble o (natReqs mu ml mn ms) (L : ℚ) (mu : ℚ) (ml : ℚ) (mn : ℚ) (ms : ℚ) sec)
        mr) := by
  unfold generatePassword
  rw [gpValidate_ok L o mu ml mn ms h]
  rfl

theorem generatePassword_error_iff (length : JSVal) (o : GenOptions) (r : Requirements)
    (sec mr : ℕ → ℕ) (e : JsError) :
    generatePassword length o r sec mr = Except.error e ↔
      gpValidate length o r = Except.error e := by
  unfold generatePassword
  cases h : gpValidate length o r with
  | error e2 => simp [h, Bind.bind, Except.bind]
  | ok v =>
    obtain ⟨a, b, c, d, f⟩ := v
    simp [h, Bind.bind, Except.bind, shuffle]

theorem gpValidate_sum_error (Lq : ℚ) (hL : ¬ Lq < 1) (o : GenOptions) (mu ml mn ms : ℕ)
    (hgt : Lq < (mu : ℚ) + ml + mn + ms) :
    gpValidate (JSVal.num Lq) o (natReqs mu ml mn ms) =
      Except.error (JsError.error
        ("Your password length is too short to meet your requirements. Change password length to at least "
          ++ toString ((mu : ℚ) + ml + mn + ms))) := by
  have hmu : ¬ ((mu : ℚ) < 0) := not_lt.mpr (Nat.cast_nonneg mu)
  have hml : ¬ ((ml : ℚ) < 0) := not_lt.mpr (Nat.cast_nonneg ml)
  have hmn : ¬ ((mn : ℚ) < 0) := not_lt.mpr (Nat.cast_nonneg mn)
  have hms : ¬ ((ms : ℚ) < 0) := not_lt.mpr (Nat.cast_nonneg ms)
  simp only [gpValidate, natReqs, Option.getD_some,
    validateInput_num_ok hL, validateInput_num_ok hmu, validateInput_num_ok hml,
    validateInput_num_ok hmn, validateInput_num_ok hms]
  simp [Bind.bind, Except.bind, hgt]

theorem gpValidate_poolEmpty_error (Lq : ℚ) (hL : ¬ Lq < 1) (o : GenOptions)
    (mu ml mn ms : ℕ) (hsum : (mu : ℚ) + ml + mn + ms ≤ Lq)
    (hdu : o.uppercase = false → mu = 0) (hdl : o.lowercase = false → ml = 0)
    (hdn : o.numbers = false → mn = 0) (hds : o.symbols = false → ms = 0)
    (hpool : charSetOf o = []) :
    gpValidate (JSVal.num Lq) o (natReqs mu ml mn ms) =
      Except.error (JsError.rangeError
        "Character pool is empty. Enable at least one character type.") := by
  have hmu : ¬ ((mu : ℚ) < 0) := not_lt.mpr (Nat.cast_nonneg mu)
  have hml : ¬ ((ml : ℚ) < 0) := not_lt.mpr (Nat.cast_nonneg ml)
  have hmn : ¬ ((mn : ℚ) < 0) := not_lt.mpr (Nat.cast_nonneg mn)
  have hms : ¬ ((ms : ℚ) < 0) := not_lt.mpr (Nat.cast_nonneg ms)
  have hgt : ¬ ((mu : ℚ) + (ml : ℚ) + (mn : ℚ) + (ms : ℚ) > Lq) := not_lt.mpr hsum
  have hopt2 : ¬ (o.uppercase = false ∧ ¬ mu = 0 ∨ o.lowercase = false ∧ ¬ ml = 0 ∨
      o.numbers = false ∧ ¬ mn = 0 ∨ o.symbols = false ∧ ¬ ms = 0) := by
    push_neg
    exact ⟨hdu, hdl, hdn, hds⟩
  simp only [gpValidate, natReqs, Option.getD_some,
    validateInput_num_ok hL, validateInput_num_ok hmu, validateInput_num_ok hml,
    validateInput_num_ok hmn, validateInput_num_ok hms]
  simp [Bind.bind, Except.bind, hgt, hopt2, hpool, pure, Except.pure]

theorem generatePassword_other_typeError (o : GenOptions) (r : Requirements)
    (sec mr : ℕ → ℕ) :
    generatePassword JSVal.other o r sec mr =
      Except.error (JsError.typeError "Password length must be a number") := rfl

theorem generatePassword_shortLength_rangeError {Lq : ℚ} (hq : Lq < 1) (o : GenOptions)
    (r : Requirements) (sec mr : ℕ → ℕ) :
    generatePassword (JSVal.num Lq) o r sec mr =
      Except.error (JsError.rangeError
        ("Password length must be equal at least " ++ toString (1 : ℚ))) := by
  unfold generatePassword gpValidate
  simp [validateInput, hq, Bind.bind, Except.bind]

/-! ## Evaluating generateMultiplePasswords -/

theorem mapM_ok {α : Type} (f : α → Except JsError (List Char)) (g : α → List Char) :
    ∀ l : List α, (∀ i ∈ l, f i = Except.ok (g i)) → l.mapM f = Except.ok (l.map g) := by
  intro l
  induction l with
  | nil => intro _; rfl
  | cons a t ih =>
    intro h
    rw [List.mapM_cons, h a (by simp), ih (fun x hx => h x (by simp [hx]))]
    rfl

theorem jsLoopCount_pos_int (A : ℕ) : jsLoopCount ((A : ℕ) : ℚ) = A := jsLoopCount_natCast A

theorem generateMultiplePasswords_nat (A : ℕ) (hA : 1 ≤ A) (Lv : JSVal) (Lq : ℚ)
    (hLv : validateInput Lv 1 "Password length" = Except.ok Lq) (o : GenOptions)
    (r : Requirements) (sec mr : ℕ → ℕ → ℕ) :
    generateMultiplePasswords (JSVal.num (A : ℚ)) Lv o r sec mr =
      (List.range A).mapM (fun i => generatePassword Lv o r (sec i) (mr i)) := by
  have hA' : ¬ ((A : ℚ) < 1) := by
    rw [not_lt]
    exact_mod_cast hA
  unfold generateMultiplePasswords
  rw [hLv, validateInput_num_ok hA']
  simp [Bind.bind, Except.bind, jsLoopCount_natCast]

theorem generateMultiplePasswords_amount_typeError (Lv : JSVal) (Lq : ℚ)
    (hLv : validateInput Lv 1 "Password length" = Except.ok Lq) (o : GenOptions)
    (r : Requirements) (sec mr : ℕ → ℕ → ℕ) :
    generateMultiplePasswords JSVal.other Lv o r sec mr =
      Except.error (JsError.typeError "Amount of passwords must be a number") := by
  unfold generateMultiplePasswords
  rw [hLv]
  simp [validateInput, Bind.bind, Except.bind]

theorem generateMultiplePasswords_amount_rangeError {aq : ℚ} (ha : aq < 1) (Lv : JSVal)
    (Lq : ℚ) (hLv : validateInput Lv 1 "Password length" = Except.ok Lq) (o : GenOptions)
    (r : Requirements) (sec mr : ℕ → ℕ → ℕ) :
    generateMultiplePasswords (JSVal.num aq) Lv o r sec mr =
      Except.error (JsError.rangeError
        ("Amount of passwords must be equal at least " ++ toString (1 : ℚ))) := by
  unfold generateMultiplePasswords
  rw [hLv]
  simp [validateInput, ha, Bind.bind, Except.bind]

/-! ## Exclusion and further helper lemmas -/

theorem applyFilters_not_excluded (o : GenOptions) (base : List Char) {c : Char}
    (hc : c ∈ applyFilters o base) (hex : o.exclude ≠ []) : c ∉ o.exclude := by
  unfold applyFilters at hc
  rw [if_pos hex] at hc
  intro hmem
  cases hs : o.similar <;> simp [hs, List.mem_filter, hmem] at hc

theorem charSetOf_not_excluded (o : GenOptions) {c : Char} (hc : c ∈ charSetOf o)
    (hex : c ∈ o.exclude) : False := by
  have hne : o.exclude ≠ [] := List.ne_nil_of_mem hex
  unfold charSetOf pcLower pcUpper pcNum pcSym at hc
  simp only [List.mem_append] at hc
  rcases hc with ((h | h) | h) | h <;>
    exact applyFilters_not_excluded o _ h hne hex

theorem mapM_length {α : Type} (f : α → Except JsError (List Char)) :
    ∀ (l : List α) (out : List (List Char)),
      l.mapM f = Except.ok out → out.length = l.length := by
  intro l
  induction l with
  | nil =>
    intro out h
    rw [List.mapM_nil] at h
    cases h
    rfl
  | cons a t ih =>
    intro out h
    rw [List.mapM_cons] at h
    cases hfa : f a with
    | error e => rw [hfa] at h; simp [Bind.bind, Except.bind] at h
    | ok b =>
      rw [hfa] at h
      cases hmt : t.mapM f with
      | error e => rw [hmt] at h; simp [Bind.bind, Except.bind] at h
      | ok bs =>
        rw [hmt] at h
        simp [Bind.bind, Except.bind, pure, Except.pure] at h
        subst h
        simp [ih bs hmt]

theorem gpValidate_optionsError (Lq : ℚ) (hL : ¬ Lq < 1) (o : GenOptions)
    (mu ml mn ms : ℕ) (hsum : (mu : ℚ) + ml + mn + ms ≤ Lq)
    (hbad : (o.uppercase = false ∧ ¬ mu = 0) ∨ (o.lowercase = false ∧ ¬ ml = 0) ∨
      (o.numbers = false ∧ ¬ mn = 0) ∨ (o.symbols = false ∧ ¬ ms = 0)) :
    gpValidate (JSVal.num Lq) o (natReqs mu ml mn ms) =
      Except.error (JsError.error "Your password options do not meet the requirements.") := by
  have hmu : ¬ ((mu : ℚ) < 0) := not_lt.mpr (Nat.cast_nonneg mu)
  have hml : ¬ ((ml : ℚ) < 0) := not_lt.mpr (Nat.cast_nonneg ml)
  have hmn : ¬ ((mn : ℚ) < 0) := not_lt.mpr (Nat.cast_nonneg mn)
  have hms : ¬ ((ms : ℚ) < 0) := not_lt.mpr (Nat.cast_nonneg ms)
  have hgt : ¬ ((mu : ℚ) + (ml : ℚ) + (mn : ℚ) + (ms : ℚ) > Lq) := not_lt.mpr hsum
  simp only [gpValidate, natReqs, Option.getD_some,
    validateInput_num_ok hL, validateInput_num_ok hmu, validateInput_num_ok hml,
    validateInput_num_ok hmn, validateInput_num_ok hms]
  simp [Bind.bind, Except.bind, hgt, hbad, pure, Except.pure]

/-! ## The claims -/

/-- C1: for every valid input (positive integer length, options and natural
requirements passing all validation), `generatePassword` returns a string of
exactly `length` characters, every character of which belongs to the full
filtered pool (the order-preserving concatenation lowercase, uppercase,
numbers, symbols of the enabled classes' filtered alphabets). -/
theorem C1_valid_generates_length_and_pool (L : ℕ) (o : GenOptions) (mu ml mn ms : ℕ)
    (h : ValidConfig L o mu ml mn ms) (sec mr : ℕ → ℕ) :
    ∃ out, generatePassword (JSVal.num (L : ℚ)) o (natReqs mu ml mn ms) sec mr =
        Except.ok out ∧ out.length = L ∧ ∀ c ∈ out, c ∈ charSetOf o := by
  obtain ⟨hL, hsum, hdu, hdl, hdn, hds, hpool, hpu, hpl, hpn, hps⟩ := h
  refine ⟨_, generatePassword_ok L o mu ml mn ms
    ⟨hL, hsum, hdu, hdl, hdn, hds, hpool, hpu, hpl, hpn, hps⟩ sec mr, ?_, ?_⟩
  · rw [(fisherYates_perm _ mr).length_eq]
    exact assemble_length o mu ml mn ms L hsum hpool hpu hpl hpn hps sec
  · intro c hc
    exact assemble_mem o mu ml mn ms L hsum hpool hpu hpl hpn hps sec
      ((fisherYates_perm _ mr).mem_iff.mp hc)

theorem C1_valid_generates_length_and_pool_witness :
    ∃ out, generatePassword (JSVal.num ((4 : ℕ) : ℚ)) {} (natReqs 1 1 1 1)
        (fun i => i) (fun i => i) = Except.ok out ∧
      out.length = 4 ∧ ∀ c ∈ out, c ∈ charSetOf {} :=
  C1_valid_generates_length_and_pool 4 {} 1 1 1 1 (by decide) (fun i => i) (fun i => i)

/-- C2: for every valid input, the password contains at least `minUpper`
characters of the filtered uppercase pool, at least `minLower` of the filtered
lowercase pool, at least `minNumbers` of the filtered numbers pool and at least
`minSymbols` of the filtered symbols pool. -/
theorem C2_minimum_class_counts (L : ℕ) (o : GenOptions) (mu ml mn ms : ℕ)
    (h : ValidConfig L o mu ml mn ms) (sec mr : ℕ → ℕ) :
    ∃ out, generatePassword (JSVal.num (L : ℚ)) o (natReqs mu ml mn ms) sec mr =
        Except.ok out ∧
      mu ≤ out.countP (fun c => decide (c ∈ pcUpper o)) ∧
      ml ≤ out.countP (fun c => decide (c ∈ pcLower o)) ∧
      mn ≤ out.countP (fun c => decide (c ∈ pcNum o)) ∧
      ms ≤ out.countP (fun c => decide (c ∈ pcSym o)) := by
  obtain ⟨hL, hsum, hdu, hdl, hdn, hds, hpool, hpu, hpl, hpn, hps⟩ := h
  refine ⟨_, generatePassword_ok L o mu ml mn ms
    ⟨hL, hsum, hdu, hdl, hdn, hds, hpool, hpu, hpl, hpn, hps⟩ sec mr, ?_, ?_, ?_, ?_⟩
  · rw [List.Perm.countP_eq _ (fisherYates_perm _ mr)]
    exact assemble_countP_upper o mu ml mn ms (L : ℚ) hpu sec
  · rw [List.Perm.countP_eq _ (fisherYates_perm _ mr)]
    exact assemble_countP_lower o mu ml mn ms (L : ℚ) hpl sec
  · rw [List.Perm.countP_eq _ (fisherYates_perm _ mr)]
    exact assemble_countP_num o mu ml mn ms (L : ℚ) hpn sec
  · rw [List.Perm.countP_eq _ (fisherYates_perm _ mr)]
    exact assemble_countP_sym o mu ml mn ms (L : ℚ) hps sec

theorem C2_minimum_class_counts_witness :
    ∃ out, generatePassword (JSVal.num ((6 : ℕ) : ℚ)) {} (natReqs 2 1 1 1)
        (fun i => i) (fun i => i) = Except.ok out ∧
      2 ≤ out.countP (fun c => decide (c ∈ pcUpper {})) ∧
      1 ≤ out.countP (fun c => decide (c ∈ pcLower {})) ∧
      1 ≤ out.countP (fun c => decide (c ∈ pcNum {})) ∧
      1 ≤ out.countP (fun c => decide (c ∈ pcSym {})) :=
  C2_minimum_class_counts 6 {} 2 1 1 1 (by decide) (fun i => i) (fun i => i)

/-- C6: every character of the exclusion string is absent from the generated
password; exclusion is literal character removal (in this embedding the
filtering is a direct membership test, which is what the source's escaping of
pattern-special characters achieves), so the property holds whatever
characters the exclusion string contains. -/
theorem C6_excluded_chars_absent (L : ℕ) (o : GenOptions) (mu ml mn ms : ℕ)
    (h : ValidConfig L o mu ml mn ms) (sec mr : ℕ → ℕ) :
    ∃ out, generatePassword (JSVal.num (L : ℚ)) o (natReqs mu ml mn ms) sec mr =
        Except.ok out ∧ ∀ c ∈ o.exclude, c ∉ out := by
  obtain ⟨hL, hsum, hdu, hdl, hdn, hds, hpool, hpu, hpl, hpn, hps⟩ := h
  refine ⟨_, generatePassword_ok L o mu ml mn ms
    ⟨hL, hsum, hdu, hdl, hdn, hds, hpool, hpu, hpl, hpn, hps⟩ sec mr, ?_⟩
  intro c hcx hcout
  exact charSetOf_not_excluded o
    (assemble_mem o mu ml mn ms L hsum hpool hpu hpl hpn hps sec
      ((fisherYates_perm _ mr).mem_iff.mp hcout)) hcx

theorem C6_excluded_chars_absent_witness :
    ('-' ∈ ({ exclude := "-]^a".toList } : GenOptions).exclude) ∧
    ∃ out, generatePassword (JSVal.num ((5 : ℕ) : ℚ)) { exclude := "-]^a".toList }
        (natReqs 0 0 0 0) (fun i => i) (fun i => i) = Except.ok out ∧
      ∀ c ∈ ({ exclude := "-]^a".toList } : GenOptions).exclude, c ∉ out :=
  ⟨by decide, C6_excluded_chars_absent 5 { exclude := "-]^a".toList } 0 0 0 0
    (by decide) (fun i => i) (fun i => i)⟩

/-- C8: `shuffle` on any string returns (for every sequence of random draws) a
permutation of the same multiset of characters; on a non-string input it fails
with the "not a valid sequence" `TypeError`. -/
theorem C8_shuffle_permutation_and_type_error :
    (∀ (s : List Char) (mr : ℕ → ℕ),
      shuffle (JSArg.str s) mr = Except.ok (fisherYates s mr) ∧
        (fisherYates s mr).Perm s) ∧
    (∀ mr : ℕ → ℕ, shuffle JSArg.nonString mr =
      Except.error (JsError.typeError "Shuffle function only accept string as an argument")) :=
  ⟨fun s mr => ⟨rfl, fisherYates_perm s mr⟩, fun _ => rfl⟩

/-- C9: length validation precedes every other check in `generatePassword`:
a non-number length yields the length `TypeError`, and a numeric length below 1
yields the length `RangeError`, in both cases for all options and requirements
whatsoever (even ones that would themselves be rejected later). -/
theorem C9_length_validation_precedence :
    (∀ (o : GenOptions) (r : Requirements) (sec mr : ℕ → ℕ),
      generatePassword JSVal.other o r sec mr =
        Except.error (JsError.typeError "Password length must be a number")) ∧
    (∀ (q : ℚ), q < 1 → ∀ (o : GenOptions) (r : Requirements) (sec mr : ℕ → ℕ),
      generatePassword (JSVal.num q) o r sec mr =
        Except.error (JsError.rangeError
          ("Password length must be equal at least " ++ toString (1 : ℚ)))) :=
  ⟨fun o r sec mr => generatePassword_other_typeError o r sec mr,
   fun _ hq o r sec mr => generatePassword_shortLength_rangeError hq o r sec mr⟩

theorem C9_length_validation_precedence_witness :
    generatePassword (JSVal.num 0) {} { minUpper := some (-1) } (fun i => i) (fun i => i) =
      Except.error (JsError.rangeError
        ("Password length must be equal at least " ++ toString (1 : ℚ))) :=
  C9_length_validation_precedence.2 0 (by norm_num) {} { minUpper := some (-1) }
    (fun i => i) (fun i => i)

/-- C10: an enabled class whose filtered pool is empty does not by itself cause
an error: as long as the full pool is non-empty and every class with a positive
minimum has a non-empty filtered pool (and the rest of validation passes),
generation succeeds; the hypotheses place no condition on the filtered pool of
an enabled class whose minimum is zero. -/
theorem C10_empty_filtered_class_tolerated (L : ℕ) (o : GenOptions) (mu ml mn ms : ℕ)
    (h : ValidConfig L o mu ml mn ms) (sec mr : ℕ → ℕ) :
    ∃ out, generatePassword (JSVal.num (L : ℚ)) o (natReqs mu ml mn ms) sec mr =
      Except.ok out :=
  ⟨_, generatePassword_ok L o mu ml mn ms h sec mr⟩

theorem C10_empty_filtered_class_tolerated_witness :
    pcLower { exclude := "abcdefghijklmnopqrstuvwxyz".toList } = [] ∧
    ({ exclude := "abcdefghijklmnopqrstuvwxyz".toList } : GenOptions).lowercase = true ∧
    ∃ out, generatePassword (JSVal.num ((8 : ℕ) : ℚ))
        { exclude := "abcdefghijklmnopqrstuvwxyz".toList } (natReqs 1 0 1 1)
        (fun i => i) (fun i => i) = Except.ok out :=
  ⟨by decide, rfl, C10_empty_filtered_class_tolerated 8
    { exclude := "abcdefghijklmnopqrstuvwxyz".toList } 1 0 1 1 (by decide)
    (fun i => i) (fun i => i)⟩

/-- C3 counterexample: with the secure stream held fixed, changing only the
`Math.random` stream changes the output of `generatePassword`, so the output
does not depend on the secure random stream alone — the shuffle's index draws
come from `Math.random`, not from the secure source. -/
theorem C3_randomness_counterexample :
    generatePassword (JSVal.num ((2 : ℕ) : ℚ)) {} (natReqs 0 0 0 0)
        (fun i => i) (fun _ => 0) ≠
      generatePassword (JSVal.num ((2 : ℕ) : ℚ)) {} (natReqs 0 0 0 0)
        (fun i => i) (fun _ => 1) := by
  rw [generatePassword_ok 2 {} 0 0 0 0 (by decide) (fun i => i) (fun _ => 0),
    generatePassword_ok 2 {} 0 0 0 0 (by decide) (fun i => i) (fun _ => 1)]
  have hA : assemble {} (natReqs 0 0 0 0) ((2 : ℕ) : ℚ) ((0 : ℕ) : ℚ) ((0 : ℕ) : ℚ)
      ((0 : ℕ) : ℚ) ((0 : ℕ) : ℚ) (fun i => i) = ['a', 'b'] := by
    rw [assemble_natReqs]
    have hfill : (((2 : ℕ) : ℚ) - (((0 : ℕ) : ℚ) + ((0 : ℕ) : ℚ) + ((0 : ℕ) : ℚ) +
        ((0 : ℕ) : ℚ))) = ((2 : ℕ) : ℚ) := by
      push_cast
      ring
    rw [hfill, getRandomString_natCast (charSetOf {}) (by decide) 2 (fun i => i) 0]
    decide
  rw [hA]
  intro h
  exact absurd (Except.ok.inj h) (by decide)

/-- C3 amended: all character-selection draws come from the secure stream, but
the shuffle consumes the `Math.random` stream, so only the multiset of
characters of the output is determined by the secure stream: for a fixed secure
stream, runs with different `Math.random` streams return permutations of one
another (and identical error behaviour). -/
theorem C3_secure_stream_determines_multiset (length : JSVal) (o : GenOptions)
    (r : Requirements) (sec mr mr2 : ℕ → ℕ) (out : List Char)
    (h : generatePassword length o r sec mr = Except.ok out) :
    ∃ out2, generatePassword length o r sec mr2 = Except.ok out2 ∧ out2.Perm out := by
  unfold generatePassword at h ⊢
  cases hv : gpValidate length o r with
  | error e =>
    rw [hv] at h
    simp [Bind.bind, Except.bind] at h
  | ok v =>
    obtain ⟨a, b, c2, d, f⟩ := v
    rw [hv] at h
    simp only [Bind.bind, Except.bind, shuffle] at h ⊢
    have hout : fisherYates (assemble o r a b c2 d f sec) mr = out := Except.ok.inj h
    refine ⟨fisherYates (assemble o r a b c2 d f sec) mr2, rfl, ?_⟩
    rw [← hout]
    exact (fisherYates_perm _ mr2).trans (fisherYates_perm _ mr).symm

theorem C3_secure_stream_determines_multiset_witness :
    ∃ out2, generatePassword (JSVal.num ((2 : ℕ) : ℚ)) {} (natReqs 0 0 0 0)
        (fun i => i) (fun _ => 1) = Except.ok out2 ∧
      out2.Perm (fisherYates (assemble {} (natReqs 0 0 0 0) ((2 : ℕ) : ℚ) ((0 : ℕ) : ℚ)
        ((0 : ℕ) : ℚ) ((0 : ℕ) : ℚ) ((0 : ℕ) : ℚ) (fun i => i)) (fun _ => 0)) :=
  C3_secure_stream_determines_multiset (JSVal.num ((2 : ℕ) : ℚ)) {} (natReqs 0 0 0 0)
    (fun i => i) (fun _ => 0) (fun _ => 1) _
    (generatePassword_ok 2 {} 0 0 0 0 (by decide) (fun i => i) (fun _ => 0))

/-- C4 counterexample: for an input whose full pool is empty after filtering
(all classes disabled) and whose requirements are also invalid (a positive
minimum for a disabled class), the code throws the requirement-vs-disabled
error (checked at lines 117-124, before pool construction), not the
"character pool empty" error the claim says is reached first. -/
theorem C4_check_order_counterexample :
    generatePassword (JSVal.num ((4 : ℕ) : ℚ))
        { uppercase := false, lowercase := false, numbers := false, symbols := false }
        (natReqs 1 0 0 0) (fun i => i) (fun i => i) =
      Except.error (JsError.error "Your password options do not meet the requirements.") ∧
    JsError.error "Your password options do not meet the requirements." ≠
      JsError.rangeError "Character pool is empty. Enable at least one character type." := by
  constructor
  · refine (generatePassword_error_iff _ _ _ _ _ _).mpr ?_
    refine gpValidate_optionsError ((4 : ℕ) : ℚ) (by decide) _ 1 0 0 0 ?_ ?_
    · push_cast
      norm_num
    · exact Or.inl ⟨rfl, by norm_num⟩
  · decide

/-- C4 amended: the non-negativity, sum and disabled-class checks run before
pool filtering, and only the pool-empty and requirement-vs-filtered-pool checks
run after it; but it remains true that no random value is consumed on any
failing run — an error result is entirely independent of both random streams —
and that when every check up to pool construction passes and the full pool is
empty, the "character pool empty" error is raised (before the
requirement-vs-filtered-pool check). -/
theorem C4_checks_before_draws :
    (∀ (length : JSVal) (o : GenOptions) (r : Requirements) (sec mr sec2 mr2 : ℕ → ℕ)
      (e : JsError), generatePassword length o r sec mr = Except.error e →
        generatePassword length o r sec2 mr2 = Except.error e) ∧
    (∀ (L : ℕ), 1 ≤ L → ∀ (o : GenOptions) (mu ml mn ms : ℕ), mu + ml + mn + ms ≤ L →
      (o.uppercase = false → mu = 0) → (o.lowercase = false → ml = 0) →
      (o.numbers = false → mn = 0) → (o.symbols = false → ms = 0) → charSetOf o = [] →
      ∀ (sec mr : ℕ → ℕ),
        generatePassword (JSVal.num (L : ℚ)) o (natReqs mu ml mn ms) sec mr =
          Except.error (JsError.rangeError
            "Character pool is empty. Enable at least one character type.")) := by
  constructor
  · intro length o r sec mr sec2 mr2 e he
    exact (generatePassword_error_iff length o r sec2 mr2 e).mpr
      ((generatePassword_error_iff length o r sec mr e).mp he)
  · intro L hL o mu ml mn ms hsum hdu hdl hdn hds hpool sec mr
    refine (generatePassword_error_iff _ _ _ _ _ _).mpr ?_
    refine gpValidate_poolEmpty_error (L : ℚ) ?_ o mu ml mn ms ?_ hdu hdl hdn hds hpool
    · rw [not_lt]
      exact_mod_cast hL
    · exact_mod_cast hsum

theorem C4_checks_before_draws_witness :
    generatePassword (JSVal.num ((4 : ℕ) : ℚ))
        { uppercase := false, lowercase := false, numbers := false, symbols := false }
        (natReqs 0 0 0 0) (fun i => i) (fun i => i) =
      Except.error (JsError.rangeError
        "Character pool is empty. Enable at least one character type.") ∧
    generatePassword (JSVal.num ((4 : ℕ) : ℚ))
        { uppercase := false, lowercase := false, numbers := false, symbols := false }
        (natReqs 0 0 0 0) (fun _ => 99) (fun _ => 7) =
      Except.error (JsError.rangeError
        "Character pool is empty. Enable at least one character type.") := by
  have h1 := C4_checks_before_draws.2 4 (by decide)
    { uppercase := false, lowercase := false, numbers := false, symbols := false }
    0 0 0 0 (by decide) (fun _ => rfl) (fun _ => rfl) (fun _ => rfl) (fun _ => rfl)
    (by decide) (fun i => i) (fun i => i)
  exact ⟨h1, C4_checks_before_draws.1 _ _ _ (fun i => i) (fun i => i)
    (fun _ => 99) (fun _ => 7) _ h1⟩

/-- C5: if the sum of the four minimums exceeds the length, `generatePassword`
fails with the unsatisfiable-configuration error whose message names the sum as
the minimum sufficient length; at the boundary where the sum equals the length
(and the rest of validation passes) generation succeeds with a password of the
requested length, and the filler draw of that configuration is the empty
string. -/
theorem C5_sum_exceeds_length_boundary :
    (∀ (L : ℕ), 1 ≤ L → ∀ (o : GenOptions) (mu ml mn ms : ℕ), L < mu + ml + mn + ms →
      ∀ (sec mr : ℕ → ℕ),
        generatePassword (JSVal.num (L : ℚ)) o (natReqs mu ml mn ms) sec mr =
          Except.error (JsError.error
            ("Your password length is too short to meet your requirements. Change password length to at least "
              ++ toString ((mu : ℚ) + ml + mn + ms)))) ∧
    (∀ (L : ℕ) (o : GenOptions) (mu ml mn ms : ℕ), ValidConfig L o mu ml mn ms →
      mu + ml + mn + ms = L → ∀ (sec mr : ℕ → ℕ),
        (∃ out, generatePassword (JSVal.num (L : ℚ)) o (natReqs mu ml mn ms) sec mr =
          Except.ok out ∧ out.length = L) ∧
        ∀ (pool : List Char) (sec2 : ℕ → ℕ) (off : ℕ),
          getRandomString pool ((L : ℚ) - ((mu : ℚ) + ml + mn + ms)) sec2 off = []) := by
  constructor
  · intro L hL o mu ml mn ms hgt sec mr
    refine (generatePassword_error_iff _ _ _ _ _ _).mpr ?_
    refine gpValidate_sum_error (L : ℚ) ?_ o mu ml mn ms ?_
    · rw [not_lt]
      exact_mod_cast hL
    · exact_mod_cast hgt
  · intro L o mu ml mn ms h heq sec mr
    obtain ⟨hL, hsum, hdu, hdl, hdn, hds, hpool, hpu, hpl, hpn, hps⟩ := h
    constructor
    · refine ⟨_, generatePassword_ok L o mu ml mn ms
        ⟨hL, hsum, hdu, hdl, hdn, hds, hpool, hpu, hpl, hpn, hps⟩ sec mr, ?_⟩
      rw [(fisherYates_perm _ mr).length_eq]
      exact assemble_length o mu ml mn ms L hsum hpool hpu hpl hpn hps sec
    · intro pool sec2 off
      have hs : ((mu : ℚ) + ml + mn + ms) = (L : ℚ) := by exact_mod_cast heq
      have hzero : ((L : ℚ) - ((mu : ℚ) + ml + mn + ms)) = ((0 : ℕ) : ℚ) := by
        rw [hs]
        simp
      rw [hzero]
      exact getRandomString_zero pool sec2 off

theorem C5_sum_exceeds_length_boundary_witness :
    (generatePassword (JSVal.num ((5 : ℕ) : ℚ)) {} (natReqs 6 0 0 0)
        (fun i => i) (fun i => i) =
      Except.error (JsError.error
        ("Your password length is too short to meet your requirements. Change password length to at least "
          ++ toString (((6 : ℕ) : ℚ) + ((0 : ℕ) : ℚ) + ((0 : ℕ) : ℚ) + ((0 : ℕ) : ℚ))))) ∧
    ((∃ out, generatePassword (JSVal.num ((4 : ℕ) : ℚ)) {} (natReqs 2 2 0 0)
        (fun i => i) (fun i => i) = Except.ok out ∧ out.length = 4) ∧
      ∀ (pool : List Char) (sec2 : ℕ → ℕ) (off : ℕ),
        getRandomString pool (((4 : ℕ) : ℚ) - (((2 : ℕ) : ℚ) + ((2 : ℕ) : ℚ) +
          ((0 : ℕ) : ℚ) + ((0 : ℕ) : ℚ))) sec2 off = []) :=
  ⟨C5_sum_exceeds_length_boundary.1 5 (by decide) {} 6 0 0 0 (by decide)
      (fun i => i) (fun i => i),
    C5_sum_exceeds_length_boundary.2 4 {} 2 2 0 0 (by decide) (by decide)
      (fun i => i) (fun i => i)⟩

/-- C7 counterexample: `generateMultiplePasswords` does not validate that the
amount is an integer — for the non-integer amount `5/2` (with a valid length)
it does not fail with the invalid-amount error but returns three passwords,
because the generation loop `for (let i = 0; i < amount; i++)` runs
`⌈amount⌉` times. -/
theorem C7_amount_counterexample :
    (generateMultiplePasswords (JSVal.num (Rat.mk' 5 2)) (JSVal.num ((1 : ℕ) : ℚ)) {}
        (natReqs 0 0 0 0) (fun _ i => i) (fun _ _ => 0)).map List.length =
      Except.ok 3 := by
  unfold generateMultiplePasswords
  rw [validateInput_num_ok (show ¬ ((1 : ℕ) : ℚ) < 1 by decide),
    validateInput_num_ok (show ¬ (Rat.mk' 5 2 : ℚ) < 1 by decide)]
  have h3 : jsLoopCount (Rat.mk' 5 2) = 3 := by decide
  simp only [Bind.bind, Except.bind, h3]
  rw [mapM_ok _ (fun i => fisherYates (assemble {} (natReqs 0 0 0 0) ((1 : ℕ) : ℚ)
      ((0 : ℕ) : ℚ) ((0 : ℕ) : ℚ) ((0 : ℕ) : ℚ) ((0 : ℕ) : ℚ) (fun j => j)) (fun _ => 0))
    (List.range 3)
    (fun i _ => generatePassword_ok 1 {} 0 0 0 0 (by decide) (fun j => j) (fun _ => 0))]
  simp [Except.map]

/-- C7 amended: `generateMultiplePasswords` validates (after the length) that
`amount` is a number not below 1 — but not that it is an integer: a non-number
amount fails with the amount `TypeError`, an amount below 1 with the amount
`RangeError`, and for every positive integer amount the result is exactly the
sequence of `amount` passwords produced by independent invocations of
`generatePassword` (so a successful batch has exactly `amount` elements).
Non-integer amounts `≥ 1` are accepted and yield `⌈amount⌉` passwords. -/
theorem C7_batch_validation_and_count :
    (∀ (Lv : JSVal) (Lq : ℚ), validateInput Lv 1 "Password length" = Except.ok Lq →
      ∀ (o : GenOptions) (r : Requirements) (sec mr : ℕ → ℕ → ℕ),
        generateMultiplePasswords JSVal.other Lv o r sec mr =
          Except.error (JsError.typeError "Amount of passwords must be a number")) ∧
    (∀ (aq : ℚ), aq < 1 → ∀ (Lv : JSVal) (Lq : ℚ),
      validateInput Lv 1 "Password length" = Except.ok Lq →
      ∀ (o : GenOptions) (r : Requirements) (sec mr : ℕ → ℕ → ℕ),
        generateMultiplePasswords (JSVal.num aq) Lv o r sec mr =
          Except.error (JsError.rangeError
            ("Amount of passwords must be equal at least " ++ toString (1 : ℚ)))) ∧
    (∀ (A : ℕ), 1 ≤ A → ∀ (Lv : JSVal) (Lq : ℚ),
      validateInput Lv 1 "Password length" = Except.ok Lq →
      ∀ (o : GenOptions) (r : Requirements) (sec mr : ℕ → ℕ → ℕ),
        generateMultiplePasswords (JSVal.num (A : ℚ)) Lv o r sec mr =
          (List.range A).mapM (fun i => generatePassword Lv o r (sec i) (mr i)) ∧
        ∀ out, generateMultiplePasswords (JSVal.num (A : ℚ)) Lv o r sec mr =
          Except.ok out → out.length = A) := by
  refine ⟨?_, ?_, ?_⟩
  · intro Lv Lq hLv o r sec mr
    exact generateMultiplePasswords_amount_typeError Lv Lq hLv o r sec mr
  · intro aq ha Lv Lq hLv o r sec mr
    exact generateMultiplePasswords_amount_rangeError ha Lv Lq hLv o r sec mr
  · intro A hA Lv Lq hLv o r sec mr
    have hmain := generateMultiplePasswords_nat A hA Lv Lq hLv o r sec mr
    refine ⟨hmain, fun out hout => ?_⟩
    rw [hmain] at hout
    have := mapM_length (fun i => generatePassword Lv o r (sec i) (mr i))
      (List.range A) out hout
    simpa using this

theorem C7_batch_validation_and_count_witness :
    generateMultiplePasswords JSVal.other (JSVal.num ((1 : ℕ) : ℚ)) {} (natReqs 0 0 0 0)
        (fun _ i => i) (fun _ _ => 0) =
      Except.error (JsError.typeError "Amount of passwords must be a number") ∧
    generateMultiplePasswords (JSVal.num 0) (JSVal.num ((1 : ℕ) : ℚ)) {} (natReqs 0 0 0 0)
        (fun _ i => i) (fun _ _ => 0) =
      Except.error (JsError.rangeError
        ("Amount of passwords must be equal at least " ++ toString (1 : ℚ))) ∧
    generateMultiplePasswords (JSVal.num ((2 : ℕ) : ℚ)) (JSVal.num ((1 : ℕ) : ℚ)) {}
        (natReqs 0 0 0 0) (fun _ i => i) (fun _ _ => 0) =
      (List.range 2).mapM (fun i => generatePassword (JSVal.num ((1 : ℕ) : ℚ)) {}
        (natReqs 0 0 0 0) (fun j => j) (fun _ => 0)) :=
  ⟨C7_batch_validation_and_count.1 (JSVal.num ((1 : ℕ) : ℚ)) ((1 : ℕ) : ℚ)
      (validateInput_num_ok (by decide) "Password length") {} (natReqs 0 0 0 0)
      (fun _ i => i) (fun _ _ => 0),
    (C7_batch_validation_and_count.2.1 0 (by norm_num) (JSVal.num ((1 : ℕ) : ℚ))
      ((1 : ℕ) : ℚ) (validateInput_num_ok (by decide) "Password length") {}
      (natReqs 0 0 0 0) (fun _ i => i) (fun _ _ => 0)),
    (C7_batch_validation_and_count.2.2 2 (by decide) (JSVal.num ((1 : ℕ) : ℚ))
      ((1 : ℕ) : ℚ) (validateInput_num_ok (by decide) "Password length") {}
      (natReqs 0 0 0 0) (fun _ i => i) (fun _ _ => 0)).1⟩
